import Mathlib

/-!
Shallow embedding of the `robottravel` backend route-deviation engine:
`src/backend/maps/routes.py` and `src/backend/models.py`, together with
spec-modelled stand-ins for the helpers of `backend/maps/utils.py`
(`pathDeviationPoints`, `get_deviation_points`, `create_query`), which are
imported by `routes.py` but whose source is not part of the repository
snapshot.

Modelling conventions:
* Python ints are `ℤ` (Python `//` is `Int.fdiv`, the remainder identity
  uses `Int.fmod`); floats are modelled exactly as `ℚ`.
* Database rows (`User`, `Query`, `Tag`, `Location`) are structures; the
  database session is an explicit `DB` state threaded through each handler.
* External collaborators (token verification, the directions service, the
  place-search service) are function parameters of each handler.
* Code that can raise an uncaught exception (attribute access on `None`,
  indexing `[0]` into an empty JSON array, missing dict key) is embedded as
  an `Option`-returning function, `none` marking the crash.
* JSON responses are the `Resp` inductive; numeric response fields are kept
  as numbers (the components of the formatted strings) rather than as
  formatted text.
-/

namespace RobotTravel

/-- A coordinate pair (latitude, longitude), exact rationals. -/
abbrev Point := ℚ × ℚ

/-! ### Polyline encoding (the `polyline.encode` call in `create_query_result`)

The standard compact polyline encoding: each coordinate is scaled by 1e5 and
rounded (Python `round`, i.e. half-to-even), consecutive values are delta
encoded, zig-zag mapped to non-negative integers and packed into 5-bit
groups with a continuation bit, each group offset by 63. -/

/-- Python `round` on an exact rational: round half to even.
(`Rat.floor` is the computable floor of Batteries.) -/
def pyRound (q : ℚ) : ℤ :=
  let f : ℤ := q.floor
  let frac : ℚ := q - f
  if frac < 1/2 then f
  else if 1/2 < frac then f + 1
  else if f % 2 = 0 then f else f + 1

/-- Zig-zag mapping of a signed delta to a non-negative integer:
`v < 0 ↦ -2v - 1`, `v ≥ 0 ↦ 2v` (Python `~(v << 1)` vs `v << 1`). -/
def zigzag (v : ℤ) : ℕ :=
  if v < 0 then (-2 * v - 1).toNat else (2 * v).toNat

/-- Pack a non-negative integer into 5-bit groups, low bits first, each
group offset by 63, with bit 0x20 set on every group but the last. -/
def encodeChunks (v : ℕ) : List Char :=
  if h : 32 ≤ v then
    Char.ofNat ((32 ||| (v % 32)) + 63) :: encodeChunks (v / 32)
  else
    [Char.ofNat (v + 63)]
termination_by v
decreasing_by
  exact Nat.div_lt_self (Nat.lt_of_lt_of_le (by norm_num) h) (by norm_num)

/-- Delta-encode a list of points against the previous scaled pair. -/
def encodePoints : ℤ → ℤ → List Point → List Char
  | _, _, [] => []
  | plat, plng, (lat, lng) :: rest =>
    let ilat := pyRound (lat * 100000)
    let ilng := pyRound (lng * 100000)
    encodeChunks (zigzag (ilat - plat)) ++ encodeChunks (zigzag (ilng - plng)) ++
      encodePoints ilat ilng rest

/-- `polyline.encode` with the default precision of 5. -/
def polylineEncode (pts : List Point) : String :=
  String.mk (encodePoints 0 0 pts)

/-! ### Database model (`src/backend/models.py`) -/

/-- `models.User`: id, name, email, (hashed) password, access level. -/
structure User where
  id : ℤ
  name : String
  email : String
  password : String
  access_level : ℤ
deriving DecidableEq, Repr

/-- `models.Query` (a RouteQuery): origin / destination entries, owning
user, deviation threshold `fd`. -/
structure Query where
  id : ℤ
  entry_o : String
  entry_d : String
  user_id : ℤ
  fd : ℚ
deriving DecidableEq, Repr

/-- `models.Tag` (an InterestTag): keyword attached to one query and user. -/
structure Tag where
  id : ℤ
  keyword : String
  query_id : ℤ
  user_id : ℤ
deriving DecidableEq, Repr

/-- `models.Location` (a Stopover row): name keyword, coordinates, owning
user, sponsor flag, optional owning query. -/
structure Location where
  id : ℤ
  keyword : String
  lat : ℚ
  lng : ℚ
  user_id : ℤ
  is_sp : Bool
  query_id : Option ℤ
deriving DecidableEq, Repr

/-- `Location.__init__`: `query_id` uses the sentinel `-1` for "not set"
(the column stays NULL); `is_sp` defaults to `False` at the call sites. -/
def Location.make (idv : ℤ) (keyword : String) (lat lng : ℚ) (user_id : ℤ)
    (query_id : ℤ) (is_sp : Bool) : Location :=
  { id := idv, keyword := keyword, lat := lat, lng := lng, user_id := user_id,
    is_sp := is_sp,
    query_id := if query_id = -1 then none else some query_id }

/-- The persisted state: the three tables the map routes touch, plus the
autoincrement counters for primary keys. -/
structure DB where
  queries : List Query
  tags : List Tag
  locations : List Location
  next_query_id : ℤ
  next_location_id : ℤ
deriving DecidableEq, Repr

/-! ### Google-response and response types -/

/-- One step of `routes[0].legs[0].steps[]`: its polyline text and the
consumed `duration.value` (seconds) and `distance.value` (meters). -/
structure GStep where
  polyline_points : String
  duration : ℤ
  distance : ℤ
deriving DecidableEq, Repr

/-- One leg: either a `steps` array or a single top-level
`polyline.points`. -/
structure GLeg where
  steps : Option (List GStep)
  polyline_points : String
deriving DecidableEq, Repr

/-- One route of the directions response. -/
structure GRoute where
  legs : List GLeg
deriving DecidableEq, Repr

/-- The directions collaborator's JSON body (consumed fields only). -/
structure DirectionsResp where
  routes : List GRoute
deriving DecidableEq, Repr

/-- One candidate of the place-search response: its geometry location. -/
structure PlaceCandidate where
  lat : ℚ
  lng : ℚ
deriving DecidableEq, Repr

/-- The place-search collaborator's JSON body (consumed fields only). -/
structure PlaceResp where
  candidates : List PlaceCandidate
deriving DecidableEq, Repr

/-- A resolved deviation point as the `pathDeviationPoints` /
`get_deviation_points` dictionaries carry it: name, lat, lng. -/
structure Deviation where
  name : String
  lat : ℚ
  lng : ℚ
deriving DecidableEq, Repr

/-- One entry of the `queries` list of `get_user_query`'s response. -/
structure QueryOut where
  id : ℤ
  start : String
  stop : String
  distance : ℚ
deriving DecidableEq, Repr

/-- The query parameters of the final directions GET request built by
`create_query_result` (`param_dict`): `waypoints` is absent (`none`) when
never inserted into the dict. -/
structure DirParams where
  origin : String
  destination : String
  key : String
  waypoints : Option String
deriving DecidableEq, Repr

/-- The JSON responses of the map routes. `tokenExpired` is the shared
`token_expiration_json_response`, `insufficientRights` the shared
`insufficient_rights_json_response`, `err` a `{'status': 3, ...}` body,
and the `ok*` constructors the `{'status': 0, ...}` bodies with their
payload fields. -/
inductive Resp where
  | tokenExpired : Resp
  | insufficientRights : Resp
  | err (message : String) : Resp
  | okMsg (message : String) : Resp
  | okDeviations (message : String) (deviations : List Deviation) : Resp
  | okQueries (message : String) (queries : List QueryOut) : Resp
  | okResult (message : String) (start stop : String)
      (deviations : List Deviation) (hours minutes : ℤ) (miles : ℚ) : Resp
deriving DecidableEq, Repr

/-! ### Spec-modelled helpers from `backend/maps/utils.py` -/

/-- Modelled from the spec: `backend.maps.utils.create_query` is imported by
`routes.py` but its source is not under `src/`. Per §3 of the spec a
RouteQuery is created on explicit user submission with origin, destination,
owning user and threshold distance; the `manual` flag's behaviour is an
open question in the spec and is not modelled beyond being received. -/
def create_query (db : DB) (entry_o entry_d : String) (user_id : ℤ)
    (manual : Bool) (fd : ℚ) : DB :=
  { db with
    queries := db.queries ++
      [{ id := db.next_query_id, entry_o := entry_o, entry_d := entry_d,
         user_id := user_id, fd := fd }],
    next_query_id := db.next_query_id + 1 }

/-- Modelled from the spec: `backend.maps.utils.get_deviation_points` is
imported by `routes.py` but its source is not under `src/`. Per the
Deviation Store contract (§2.5, §4.6) it is a pure read returning the
previously persisted Stopovers keyed by the owning route-query. -/
def get_deviation_points (db : DB) (query_id : ℤ) : List Deviation :=
  (db.locations.filter (fun l => l.query_id = some query_id)).map
    (fun l => { name := l.keyword, lat := l.lat, lng := l.lng })

/-! ### Route handlers (`src/backend/maps/routes.py`)

Each handler takes its collaborators (`verify` for
`User.verify_auth_token`, a directions or place-search function) and the
current `DB`, and returns the new `DB` with the response. -/

/-- `create_new_query` (`/map/query/new`): verify the token, then create
the query via the `create_query` helper. -/
def create_new_query (verify : String → Option User) (db : DB)
    (auth_token entry_o entry_d : String) (distance : ℚ) : DB × Resp :=
  match verify auth_token with
  | none => (db, Resp.tokenExpired)
  | some user =>
    (create_query db entry_o entry_d user.id true distance,
     Resp.okMsg "User query created successfully")

/-- `delete_query` (`/map/query/delete`): verify the token, check the
query id, fetch the query, check ownership, then delete and commit. -/
def delete_query (verify : String → Option User) (db : DB)
    (auth_token : String) (query_id : Option ℤ) : DB × Resp :=
  match verify auth_token with
  | none => (db, Resp.tokenExpired)
  | some user =>
    match query_id with
    | none => (db, Resp.err "query_id is of type None")
    | some qid =>
      match db.queries.find? (fun q => q.id = qid) with
      | none => (db, Resp.err "query is of type None")
      | some query =>
        if user.id ≠ query.user_id then
          (db, Resp.err "query does not belong to this user")
        else
          ({ db with queries := db.queries.filter (fun q => ¬ q.id = qid) },
           Resp.okMsg "User query deleted successfully")

/-- Lines 134–138 of `routes.py`: choose the polylines handed to
`pathDeviationPoints` — the leg's single `polyline.points` when the leg has
no `steps` field, otherwise each step's `polyline.points` in step order. -/
def selectPolylines (base_leg : GLeg) : List String :=
  match base_leg.steps with
  | none => [base_leg.polyline_points]
  | some steps => steps.map (fun x => x.polyline_points)

/-- The per-deviation loop of `compute_query_result`: each resolved
deviation is stored as a `Location` owned by the query's user and
referencing the query (`is_sp` left at its `False` default), committed one
at a time. -/
def addLocations (q : Query) (devs : List Deviation) (db : DB) : DB :=
  match devs with
  | [] => db
  | d :: rest =>
    addLocations q rest
      { db with
        locations := db.locations ++
          [Location.make db.next_location_id d.name d.lat d.lng q.user_id q.id false],
        next_location_id := db.next_location_id + 1 }

/-- `compute_query_result` (`/map/query/compute/<query_id>`): no token
check; fetches the query by id (attribute access on a missing query
raises, `none`), posts to the directions collaborator, selects the
polylines, runs `pathDeviationPoints` (passed in as `pdp`, source not under
`src/`) with the query's tags, and persists each resulting deviation. -/
def compute_query_result (dirPost : String → String → DirectionsResp)
    (pdp : List String → ℚ → List String → String → List Deviation)
    (db : DB) (query_id : ℤ) : Option (DB × Resp) :=
  match db.queries.find? (fun q => q.id = query_id) with
  | none => none
  | some query =>
    let direction_result := dirPost query.entry_o query.entry_d
    match direction_result.routes with
    | [] => none
    | route :: _ =>
      match route.legs with
      | [] => none
      | base_leg :: _ =>
        let polylines := selectPolylines base_leg
        let keywords :=
          (db.tags.filter (fun t => t.query_id = query.id)).map (fun t => t.keyword)
        let deviations := pdp polylines query.fd keywords ""
        some (addLocations query deviations db,
              Resp.okDeviations "Basic Route Created Successfully" deviations)

/-- `Query.query.filter_by(user_id=...).order_by(Query.id.desc()).first()`:
the stored query with the largest id, if any. -/
def latestQuery : List Query → Option Query
  | [] => none
  | q :: qs =>
    match latestQuery qs with
    | none => some q
    | some q2 => some (if q2.id < q.id then q else q2)

/-- Lines 195–201 of `routes.py`: the `param_dict` of the final directions
request. The `waypoints` key is inserted only when the deviation list is
non-empty, and then holds `via:enc:` ++ the polyline encoding of the
deviations' (lat, lng) pairs ++ `:`. -/
def buildDirParams (origin destination key : String)
    (deviations : List Deviation) : DirParams :=
  { origin := origin, destination := destination, key := key,
    waypoints :=
      if deviations.length ≠ 0 then
        some ("via:enc:" ++
          polylineEncode (deviations.map (fun x => (x.lat, x.lng))) ++ ":")
      else none }

/-- `round(x, 2)` of the embedding: half-to-even at two decimal places. -/
def round2 (q : ℚ) : ℚ := (pyRound (q * 100) : ℚ) / 100

/-- `create_query_result` (`/map/query/result`): verify the token; resolve
the query (the caller's newest query when no `query_id` is sent, else a
lookup by id with no ownership check); read the persisted deviations; issue
the directions request with the deviations as an encoded waypoint
parameter; sum the first leg's step durations and distances; report
hours/minutes and miles (rounded to 2 places). Indexing an empty `routes`
or `legs` array, or a leg without `steps`, raises (`none`). -/
def create_query_result (verify : String → Option User)
    (dirGet : DirParams → DirectionsResp) (key : String) (db : DB)
    (auth_token : String) (query_id : Option ℤ) : Option (DB × Resp) :=
  match verify auth_token with
  | none => some (db, Resp.tokenExpired)
  | some user =>
    let qopt :=
      match query_id with
      | none => latestQuery (db.queries.filter (fun q => q.user_id = user.id))
      | some qid => db.queries.find? (fun q => q.id = qid)
    match qopt with
    | none => some (db, Resp.err "Requested query does not exist")
    | some query =>
      let deviations := get_deviation_points db query.id
      let params := buildDirParams query.entry_o query.entry_d key deviations
      let distance_request := dirGet params
      match distance_request.routes with
      | [] => none
      | route :: _ =>
        match route.legs with
        | [] => none
        | leg :: _ =>
          match leg.steps with
          | none => none
          | some steps =>
            let duration := (steps.map (fun x => x.duration)).sum
            let distance := (steps.map (fun x => x.distance)).sum
            some (db,
              Resp.okResult "Basic Route Created Successfully"
                query.entry_o query.entry_d deviations
                (duration.fdiv 3600)
                ((duration - (duration.fdiv 3600) * 3600).fdiv 60)
                (round2 ((distance : ℚ) * (621371 / 1000000) / 1000)))

/-- `get_user_query` (`/map/query/get`): verify the token, then list
`Query.query.all()` — every stored query, whoever owns it. -/
def get_user_query (verify : String → Option User) (db : DB)
    (auth_token : String) : DB × Resp :=
  match verify auth_token with
  | none => (db, Resp.tokenExpired)
  | some _ =>
    (db, Resp.okQueries "Request fulfilled successfully"
      (db.queries.map (fun x =>
        { id := x.id, start := x.entry_o, stop := x.entry_d, distance := x.fd })))

/-- `add_sponsor_location` (`/map/sponsor/loc/add`): verify the token,
require access level ≥ 1, resolve the location text through place search
(indexing an empty candidate list raises, `none`), then store a sponsor
`Location` (`is_sp=True`, the `query_id` default `-1`, i.e. no query). -/
def add_sponsor_location (verify : String → Option User)
    (placeSearch : String → PlaceResp) (db : DB)
    (auth_token location : String) : Option (DB × Resp) :=
  match verify auth_token with
  | none => some (db, Resp.tokenExpired)
  | some user =>
    if user.access_level < 1 then some (db, Resp.insufficientRights)
    else
      match (placeSearch location).candidates with
      | [] => none
      | c :: _ =>
        let loc := Location.make db.next_location_id location c.lat c.lng user.id (-1) true
        some ({ db with locations := db.locations ++ [loc],
                        next_location_id := db.next_location_id + 1 },
              Resp.okMsg "Sponsor Location Added Successfully")

/-- `delete_location` (`/map/sponsor/loc/delete`): verify the token, fetch
the location, check ownership, then delete and commit. -/
def delete_location (verify : String → Option User) (db : DB)
    (auth_token : String) (location_id : ℤ) : DB × Resp :=
  match verify auth_token with
  | none => (db, Resp.tokenExpired)
  | some user =>
    match db.locations.find? (fun l => l.id = location_id) with
    | none => (db, Resp.err "Location not found")
    | some loc =>
      if user.id ≠ loc.user_id then
        (db, Resp.err "The requested location does not belong to this user")
      else
        ({ db with locations := db.locations.filter (fun l => ¬ l.id = location_id) },
         Resp.okMsg "Sponsor location deleted successfully")

/-! ### Spec-modelled Deviation Point Finder (§4.3)

`backend.maps.utils.pathDeviationPoints` is imported by `routes.py` but its
source is not under `src/`; the candidate-sampling core is modelled here
from §4.3 of the spec, parametrised by the geodesic distance function
(§4.2), over the concatenated path of decoded coordinates. -/

/-- Modelled from the spec: the accumulator loop of the Deviation Point
Finder (§4.3) of `backend.maps.utils.pathDeviationPoints`, not under
`src/`. `prev` is the previous-point cursor and `acc` the distance
accumulated since the last emitted candidate (or the path start); a point
is emitted, and the accumulator reset, whenever the accumulator reaches
`fd`. -/
def devAux (dist : Point → Point → ℚ) (fd : ℚ) :
    Point → ℚ → List Point → List Point
  | _, _, [] => []
  | prev, acc, p :: rest =>
    let acc2 := acc + dist prev p
    if fd ≤ acc2 then p :: devAux dist fd p 0 rest
    else devAux dist fd p acc2 rest

/-- Modelled from the spec: the Deviation Point Finder (§4.3) of
`backend.maps.utils.pathDeviationPoints`, not under `src/`: walk the
concatenated path from its first coordinate with a zero accumulator and
emit the spaced candidates. An empty path yields no candidates. -/
def deviationCandidates (dist : Point → Point → ℚ) (fd : ℚ) :
    List Point → List Point
  | [] => []
  | p :: rest => devAux dist fd p 0 rest

/-- Accumulated along-path distance of walking from `prev` through the
listed points in order. -/
def pathLength (dist : Point → Point → ℚ) : Point → List Point → ℚ
  | _, [] => 0
  | prev, p :: rest => dist prev p + pathLength dist p rest

/-- Total along-path length of a concatenated path (0 for an empty or
single-point path). -/
def totalPathLength (dist : Point → Point → ℚ) : List Point → ℚ
  | [] => 0
  | p :: rest => pathLength dist p rest

/-- `SpacedFrom dist fd prev acc path cs`: the candidate list `cs` occurs
in order inside `path`, and each candidate lies at accumulated along-path
distance at least `fd` from its predecessor candidate (with `acc` the
distance already accumulated before `prev` towards the first candidate,
and the count restarting at each emitted candidate). -/
def SpacedFrom (dist : Point → Point → ℚ) (fd : ℚ) :
    Point → ℚ → List Point → List Point → Prop
  | _, _, _, [] => True
  | prev, acc, path, c :: cs =>
    ∃ pre rest, path = pre ++ c :: rest ∧
      fd ≤ acc + pathLength dist prev (pre ++ [c]) ∧
      SpacedFrom dist fd c 0 rest cs

/-- The spacing property of a candidate list against a whole path: from the
path's first coordinate with an empty accumulator, consecutive candidates
are at least `fd` apart in accumulated along-path distance (the first one
at least `fd` from the origin). An empty path admits only the empty
candidate list. -/
def SpacedAlongPath (dist : Point → Point → ℚ) (fd : ℚ) :
    List Point → List Point → Prop
  | [], cs => cs = []
  | p :: rest, cs => SpacedFrom dist fd p 0 rest cs

lemma pathLength_nonneg (dist : Point → Point → ℚ)
    (hdist : ∀ a b, 0 ≤ dist a b) :
    ∀ (path : List Point) (prev : Point), 0 ≤ pathLength dist prev path := by
  intro path
  induction path with
  | nil => intro prev; simp [pathLength]
  | cons p rest ih =>
    intro prev
    have h1 := hdist prev p
    have h2 := ih p
    simp only [pathLength]
    linarith

lemma devAux_count (dist : Point → Point → ℚ) (fd : ℚ)
    (hdist : ∀ a b, 0 ≤ dist a b) :
    ∀ (path : List Point) (prev : Point) (acc : ℚ), 0 ≤ acc →
      ((devAux dist fd prev acc path).length : ℚ) * fd ≤
        acc + pathLength dist prev path := by
  intro path
  induction path with
  | nil => intro prev acc hacc; simp [devAux, pathLength, hacc]
  | cons p rest ih =>
    intro prev acc hacc
    have hd := hdist prev p
    simp only [devAux, pathLength]
    by_cases hem : fd ≤ acc + dist prev p
    · simp only [hem, if_pos]
      have ihr := ih p 0 le_rfl
      simp only [List.length_cons]
      push_cast
      linarith
    · simp only [hem, if_neg, not_false_iff]
      have ihr := ih p (acc + dist prev p) (by linarith)
      linarith

lemma devAux_spacedFrom (dist : Point → Point → ℚ) (fd : ℚ) :
    ∀ (path : List Point) (prev : Point) (acc : ℚ),
      SpacedFrom dist fd prev acc path (devAux dist fd prev acc path) := by
  intro path
  induction path with
  | nil => intro prev acc; simp [devAux, SpacedFrom]
  | cons p rest ih =>
    intro prev acc
    simp only [devAux]
    by_cases hem : fd ≤ acc + dist prev p
    · simp only [hem, if_pos]
      refine ⟨[], rest, rfl, ?_, ih p 0⟩
      simpa [pathLength] using hem
    · simp only [hem, if_neg, not_false_iff]
      have htail := ih p (acc + dist prev p)
      -- shift the head decomposition across the skipped point `p`
      cases hcs : devAux dist fd p (acc + dist prev p) rest with
      | nil => simp [SpacedFrom]
      | cons c cs =>
        rw [hcs] at htail
        obtain ⟨pre, rest2, hEq, hGe, hTail⟩ := htail
        refine ⟨p :: pre, rest2, by rw [hEq]; simp, ?_, hTail⟩
        have hstep : pathLength dist prev ((p :: pre) ++ [c]) =
            dist prev p + pathLength dist p (pre ++ [c]) := rfl
        rw [hstep]
        linarith

/-! ### Concrete fixtures used by witnesses and counterexamples -/

/-- An ordinary user. -/
def user1 : User :=
  { id := 1, name := "alice", email := "a@example.com", password := "pw",
    access_level := 0 }

/-- A sponsor-level user, owner of `query10`. -/
def user2 : User :=
  { id := 2, name := "bob", email := "b@example.com", password := "pw",
    access_level := 1 }

/-- A stored route query owned by `user2`. -/
def query10 : Query :=
  { id := 10, entry_o := "A", entry_d := "B", user_id := 2, fd := 50 }

/-- A stopover already persisted for `query10`. -/
def loc1 : Location :=
  { id := 1, keyword := "cafe", lat := 3, lng := 4, user_id := 2,
    is_sp := false, query_id := some 10 }

/-- A small database: one query of `user2` with one persisted stopover. -/
def db0 : DB :=
  { queries := [query10], tags := [], locations := [loc1],
    next_query_id := 11, next_location_id := 2 }

/-- A token-verification collaborator: token `t1` is `user1`, `t2` is
`user2`, everything else is expired. -/
def verify1 : String → Option User :=
  fun t => if t = "t1" then some user1 else if t = "t2" then some user2 else none

/-- The single step of `dirRespSimple`: 600 seconds, 1000 meters. -/
def stepSimple : GStep :=
  { polyline_points := "abc", duration := 600, distance := 1000 }

/-- The single leg of `dirRespSimple`. -/
def legSimple : GLeg :=
  { steps := some [stepSimple], polyline_points := "xyz" }

/-- A directions response with one route, one leg, one step. -/
def dirRespSimple : DirectionsResp :=
  { routes := [{ legs := [legSimple] }] }

/-- A directions GET collaborator returning `dirRespSimple`. -/
def dirGet1 : DirParams → DirectionsResp := fun _ => dirRespSimple

/-- A directions POST collaborator returning `dirRespSimple`. -/
def dirPost1 : String → String → DirectionsResp := fun _ _ => dirRespSimple

/-- A place-search collaborator with one candidate at (7, 8). -/
def place1 : String → PlaceResp :=
  fun _ => { candidates := [{ lat := 7, lng := 8 }] }

/-- A `pathDeviationPoints` collaborator resolving one deviation. -/
def pdp1 : List String → ℚ → List String → String → List Deviation :=
  fun _ _ _ _ => [{ name := "z", lat := 5, lng := 6 }]

/-- A taxicab distance on exact rationals, a non-negative stand-in for the
geodesic distance when instantiating the finder theorems. -/
def taxiDist : Point → Point → ℚ :=
  fun a b => |a.1 - b.1| + |a.2 - b.2|

/-- A concrete concatenated path of length 3 under `taxiDist`. -/
def path3 : List Point := [(0, 0), (0, 1), (0, 2), (0, 3)]

/-! ### Claim theorems -/

/-- C2: in the get-results directions request, an empty stored deviation
list leaves the `waypoints` parameter entirely absent, and a non-empty one
sets it to `via:enc:` ++ the polyline encoding of the deviations'
(lat, lng) pairs in stored order ++ `:`. -/
theorem waypoints_omitted_iff_empty (origin destination key : String)
    (devs : List Deviation) :
    (devs = [] → (buildDirParams origin destination key devs).waypoints = none) ∧
    (devs ≠ [] → (buildDirParams origin destination key devs).waypoints =
      some ("via:enc:" ++
        polylineEncode (devs.map (fun x => (x.lat, x.lng))) ++ ":")) := by
  constructor
  · intro h; subst h; simp [buildDirParams]
  · intro h
    simp [buildDirParams, List.length_eq_zero, h]

/-- Witness for C2 at a concrete empty and a concrete one-element
deviation list. -/
theorem waypoints_omitted_iff_empty_witness :
    (buildDirParams "A" "B" "k" []).waypoints = none ∧
    (buildDirParams "A" "B" "k" [{ name := "cafe", lat := 3, lng := 4 }]).waypoints =
      some ("via:enc:" ++ polylineEncode [(3, 4)] ++ ":") :=
  ⟨(waypoints_omitted_iff_empty "A" "B" "k" []).1 rfl,
   (waypoints_omitted_iff_empty "A" "B" "k"
      [{ name := "cafe", lat := 3, lng := 4 }]).2 (by simp)⟩

/-- C7: a RouteQuery is deleted only by its owner — when the authenticated
user's id differs from the query's `user_id`, `delete_query` returns the
ownership error response and the database is unchanged. -/
theorem delete_query_owner_only (verify : String → Option User) (db : DB)
    (auth_token : String) (qid : ℤ) (user : User) (query : Query)
    (hv : verify auth_token = some user)
    (hq : db.queries.find? (fun q => q.id = qid) = some query)
    (hneq : user.id ≠ query.user_id) :
    delete_query verify db auth_token (some qid) =
      (db, Resp.err "query does not belong to this user") := by
  simp [delete_query, hv, hq, hneq]

/-- Witness for C7: `user1` cannot delete `user2`'s query `10`. -/
theorem delete_query_owner_only_witness :
    delete_query verify1 db0 "t1" (some 10) =
      (db0, Resp.err "query does not belong to this user") :=
  delete_query_owner_only verify1 db0 "t1" 10 user1 query10
    (by decide) (by decide) (by decide)

/-- C8: when the directions response leg has no `steps` field the
compute-deviations handler passes the leg's single `polyline.points` as a
one-element list to the Deviation Point Finder, otherwise the list of every
step's `polyline.points` in step order. -/
theorem polylines_selection (base_leg : GLeg) :
    (base_leg.steps = none → selectPolylines base_leg = [base_leg.polyline_points]) ∧
    (∀ ss, base_leg.steps = some ss →
      selectPolylines base_leg = ss.map (fun x => x.polyline_points)) := by
  constructor
  · intro h; simp [selectPolylines, h]
  · intro ss h; simp [selectPolylines, h]

/-- Witness for C8 at a step-less leg and a two-step leg. -/
theorem polylines_selection_witness :
    selectPolylines { steps := none, polyline_points := "raw" } = ["raw"] ∧
    selectPolylines
      { steps := some [{ polyline_points := "s1", duration := 1, distance := 2 },
                       { polyline_points := "s2", duration := 3, distance := 4 }],
        polyline_points := "raw" } = ["s1", "s2"] :=
  ⟨(polylines_selection { steps := none, polyline_points := "raw" }).1 rfl,
   (polylines_selection
      { steps := some [{ polyline_points := "s1", duration := 1, distance := 2 },
                       { polyline_points := "s2", duration := 3, distance := 4 }],
        polyline_points := "raw" }).2 _ rfl⟩

/-- C9: for any two successfully authenticated users the get-queries
operation returns the same response — the id, origin, destination and
threshold of every stored RouteQuery of every user, independent of the
requester. -/
theorem get_queries_identical_for_all_users (verify : String → Option User)
    (db : DB) (t1 t2 : String) (u1 u2 : User)
    (h1 : verify t1 = some u1) (h2 : verify t2 = some u2) :
    get_user_query verify db t1 = get_user_query verify db t2 ∧
    get_user_query verify db t1 =
      (db, Resp.okQueries "Request fulfilled successfully"
        (db.queries.map (fun x =>
          { id := x.id, start := x.entry_o, stop := x.entry_d,
            distance := x.fd }))) := by
  constructor
  · simp [get_user_query, h1, h2]
  · simp [get_user_query, h1]

/-- Witness for C9: `user1` and `user2` both see `user2`'s query. -/
theorem get_queries_identical_for_all_users_witness :
    get_user_query verify1 db0 "t1" = get_user_query verify1 db0 "t2" ∧
    get_user_query verify1 db0 "t1" =
      (db0, Resp.okQueries "Request fulfilled successfully"
        [{ id := 10, start := "A", stop := "B", distance := 50 }]) :=
  get_queries_identical_for_all_users verify1 db0 "t1" "t2" user1 user2
    (by decide) (by decide)

/-- C10: every token-verifying operation returns the token-expiration
response and leaves the persisted state unchanged when verification
returns no user. -/
theorem expired_token_rejected_unchanged (verify : String → Option User)
    (dirGet : DirParams → DirectionsResp) (placeSearch : String → PlaceResp)
    (db : DB) (auth_token entry_o entry_d locname key : String)
    (distance : ℚ) (query_id : Option ℤ) (location_id : ℤ)
    (hv : verify auth_token = none) :
    create_new_query verify db auth_token entry_o entry_d distance =
      (db, Resp.tokenExpired) ∧
    delete_query verify db auth_token query_id = (db, Resp.tokenExpired) ∧
    create_query_result verify dirGet key db auth_token query_id =
      some (db, Resp.tokenExpired) ∧
    get_user_query verify db auth_token = (db, Resp.tokenExpired) ∧
    add_sponsor_location verify placeSearch db auth_token locname =
      some (db, Resp.tokenExpired) ∧
    delete_location verify db auth_token location_id =
      (db, Resp.tokenExpired) := by
  refine ⟨?_, ?_, ?_, ?_, ?_, ?_⟩ <;>
    simp [create_new_query, delete_query, create_query_result, get_user_query,
          add_sponsor_location, delete_location, hv]

/-- Witness for C10 with an always-expired verifier. -/
theorem expired_token_rejected_unchanged_witness :
    create_new_query (fun _ => none) db0 "t" "A" "B" 50 =
      (db0, Resp.tokenExpired) ∧
    delete_query (fun _ => none) db0 "t" (some 10) = (db0, Resp.tokenExpired) ∧
    create_query_result (fun _ => none) dirGet1 "k" db0 "t" (some 10) =
      some (db0, Resp.tokenExpired) ∧
    get_user_query (fun _ => none) db0 "t" = (db0, Resp.tokenExpired) ∧
    add_sponsor_location (fun _ => none) place1 db0 "t" "Diner" =
      some (db0, Resp.tokenExpired) ∧
    delete_location (fun _ => none) db0 "t" 1 = (db0, Resp.tokenExpired) :=
  expired_token_rejected_unchanged (fun _ => none) dirGet1 place1 db0
    "t" "A" "B" "Diner" "k" 50 (some 10) 1 rfl

/-- C5: for every concatenated path and threshold `fd > 0` (with a
non-negative distance function), the Deviation Point Finder emits at most
`⌊totalPathLength / fd⌋` candidates, the emitted candidates occur in order
along the path with accumulated along-path distance at least `fd` between
consecutive ones (the first at least `fd` from the origin), and a path
shorter than `fd` yields zero candidates rather than an error. -/
theorem deviation_finder_spacing_and_count (dist : Point → Point → ℚ)
    (fd : ℚ) (path : List Point)
    (hdist : ∀ a b, 0 ≤ dist a b) (hfd : 0 < fd) :
    ((deviationCandidates dist fd path).length : ℤ) ≤
      ⌊totalPathLength dist path / fd⌋ ∧
    SpacedAlongPath dist fd path (deviationCandidates dist fd path) ∧
    (totalPathLength dist path < fd → deviationCandidates dist fd path = []) := by
  rcases path with _ | ⟨p, rest⟩
  · refine ⟨?_, rfl, fun _ => rfl⟩
    have h0 : totalPathLength dist ([] : List Point) = 0 := rfl
    rw [h0]
    simp [deviationCandidates]
  · have hcount := devAux_count dist fd hdist rest p 0 le_rfl
    have hcand : deviationCandidates dist fd (p :: rest) = devAux dist fd p 0 rest := rfl
    have htot : totalPathLength dist (p :: rest) = pathLength dist p rest := rfl
    refine ⟨?_, devAux_spacedFrom dist fd rest p 0, ?_⟩
    · rw [hcand, htot, Int.le_floor]
      rw [le_div_iff₀ hfd]
      push_cast
      linarith
    · intro hshort
      rw [htot] at hshort
      rw [hcand]
      by_contra hne
      have hlen : 0 < (devAux dist fd p 0 rest).length := List.length_pos.mpr hne
      have h1 : (1 : ℚ) ≤ ((devAux dist fd p 0 rest).length : ℚ) := by
        exact_mod_cast hlen
      have h2 : fd ≤ ((devAux dist fd p 0 rest).length : ℚ) * fd :=
        le_mul_of_one_le_left hfd.le h1
      linarith

/-- Witness for C5: the taxicab distance, threshold 2, and a concrete
4-point path of total length 3. -/
theorem deviation_finder_spacing_and_count_witness :
    ((deviationCandidates taxiDist 2 path3).length : ℤ) ≤
      ⌊totalPathLength taxiDist path3 / 2⌋ ∧
    SpacedAlongPath taxiDist 2 path3 (deviationCandidates taxiDist 2 path3) ∧
    (totalPathLength taxiDist path3 < 2 → deviationCandidates taxiDist 2 path3 = []) :=
  deviation_finder_spacing_and_count taxiDist 2 path3
    (fun a b => add_nonneg (abs_nonneg _) (abs_nonneg _)) (by norm_num)

/-- C3: in get results the total duration is the sum of every first-leg
step's `duration.value` and the total distance the sum of every first-leg
step's `distance.value`; the reported time is `hours = total // 3600`,
`minutes = (total mod 3600) // 60`, and the reported distance in miles is
`total_meters * 0.621371 / 1000` rounded to two decimal places. -/
theorem get_results_metrics (verify : String → Option User)
    (dirGet : DirParams → DirectionsResp) (key : String) (db : DB)
    (auth_token : String) (qid : ℤ) (user : User) (query : Query)
    (route : GRoute) (routes2 : List GRoute) (leg : GLeg) (legs2 : List GLeg)
    (steps : List GStep)
    (hv : verify auth_token = some user)
    (hq : db.queries.find? (fun q => q.id = qid) = some query)
    (hr : (dirGet (buildDirParams query.entry_o query.entry_d key
            (get_deviation_points db query.id))).routes = route :: routes2)
    (hl : route.legs = leg :: legs2)
    (hs : leg.steps = some steps) :
    create_query_result verify dirGet key db auth_token (some qid) =
      some (db, Resp.okResult "Basic Route Created Successfully"
        query.entry_o query.entry_d (get_deviation_points db query.id)
        (((steps.map (fun x : GStep => x.duration)).sum).fdiv 3600)
        ((((steps.map (fun x : GStep => x.duration)).sum).fmod 3600).fdiv 60)
        (round2 (((steps.map (fun x : GStep => x.distance)).sum : ℚ) *
          (621371 / 1000000) / 1000))) := by
  have hmod : (steps.map (fun x : GStep => x.duration)).sum -
      ((steps.map (fun x : GStep => x.duration)).sum.fdiv 3600) * 3600 =
      (steps.map (fun x : GStep => x.duration)).sum.fmod 3600 := by
    have := Int.fdiv_add_fmod ((steps.map (fun x : GStep => x.duration)).sum) 3600
    linarith
  simp only [create_query_result, hv, hq, hr, hl, hs]
  rw [hmod]

/-- Witness for C3 at the concrete one-step directions response. -/
theorem get_results_metrics_witness :
    create_query_result verify1 dirGet1 "k" db0 "t2" (some 10) =
      some (db0, Resp.okResult "Basic Route Created Successfully"
        query10.entry_o query10.entry_d (get_deviation_points db0 query10.id)
        ((([stepSimple].map (fun x : GStep => x.duration)).sum).fdiv 3600)
        (((([stepSimple].map (fun x : GStep => x.duration)).sum).fmod 3600).fdiv 60)
        (round2 ((([stepSimple].map (fun x : GStep => x.distance)).sum : ℚ) *
          (621371 / 1000000) / 1000))) :=
  get_results_metrics verify1 dirGet1 "k" db0 "t2" 10 user2 query10
    { legs := [legSimple] } [] legSimple [] [stepSimple]
    (by decide) (by decide) rfl rfl rfl

/-- C4: get results is a pure read — a successful (or failing) call leaves
the database untouched, so an immediately repeated call returns the very
same response, in particular the same stopover list, and the persisted
stopover count is unchanged. -/
theorem get_results_idempotent (verify : String → Option User)
    (dirGet : DirParams → DirectionsResp) (key : String) (db : DB)
    (auth_token : String) (query_id : Option ℤ) (db2 : DB) (r : Resp)
    (h : create_query_result verify dirGet key db auth_token query_id =
      some (db2, r)) :
    db2 = db ∧
    create_query_result verify dirGet key db2 auth_token query_id =
      some (db2, r) ∧
    db2.locations.length = db.locations.length := by
  have hpres : db2 = db := by
    simp only [create_query_result] at h
    repeat' split at h
    all_goals simp_all
  subst hpres
  exact ⟨rfl, h, rfl⟩

/-- The response `create_query_result` produces on the fixture database for
query 10 with the one-step directions response, written as the handler
computes it. -/
def resp0 : Resp :=
  Resp.okResult "Basic Route Created Successfully"
    query10.entry_o query10.entry_d (get_deviation_points db0 query10.id)
    ((([stepSimple].map (fun x : GStep => x.duration)).sum).fdiv 3600)
    ((([stepSimple].map (fun x : GStep => x.duration)).sum -
      (([stepSimple].map (fun x : GStep => x.duration)).sum.fdiv 3600) * 3600).fdiv 60)
    (round2 ((([stepSimple].map (fun x : GStep => x.distance)).sum : ℚ) *
      (621371 / 1000000) / 1000))

/-- Witness for C4 at the concrete fixture database. -/
theorem get_results_idempotent_witness :
    db0 = db0 ∧
    create_query_result verify1 dirGet1 "k" db0 "t2" (some 10) =
      some (db0, resp0) ∧
    db0.locations.length = db0.locations.length :=
  get_results_idempotent verify1 dirGet1 "k" db0 "t2" (some 10) db0 resp0 rfl

lemma addLocations_mem (q : Query) :
    ∀ (devs : List Deviation) (db : DB) (loc : Location),
      loc ∈ (addLocations q devs db).locations →
      loc ∈ db.locations ∨
        (loc.user_id = q.user_id ∧
         loc.query_id = (if q.id = -1 then none else some q.id) ∧
         loc.is_sp = false) := by
  intro devs
  induction devs with
  | nil => intro db loc h; exact Or.inl h
  | cons d rest ih =>
    intro db loc h
    simp only [addLocations] at h
    rcases ih _ loc h with hmem | hnew
    · rcases List.mem_append.mp hmem with h1 | h2
      · exact Or.inl h1
      · right
        simp only [List.mem_singleton] at h2
        subst h2
        simp [Location.make]
    · exact Or.inr hnew

/-- C6: every Stopover row persisted by the compute-deviations pipeline
shares the owning query's user — it carries `user_id` equal to the query's
`user_id`, `query_id` equal to the query's id and `is_sp = False` — while
sponsor locations are created with `is_sp = True` and no query reference. -/
theorem stopover_rows_share_query_owner
    (dirPost : String → String → DirectionsResp)
    (pdp : List String → ℚ → List String → String → List Deviation)
    (verify : String → Option User) (placeSearch : String → PlaceResp)
    (db : DB) (query_id : ℤ) (query : Query) (db2 db3 : DB) (r r3 : Resp)
    (auth_token locname : String)
    (hq : db.queries.find? (fun q => q.id = query_id) = some query)
    (hid : query.id ≠ -1) :
    (compute_query_result dirPost pdp db query_id = some (db2, r) →
      ∀ loc ∈ db2.locations, loc ∈ db.locations ∨
        (loc.user_id = query.user_id ∧ loc.query_id = some query.id ∧
         loc.is_sp = false)) ∧
    (add_sponsor_location verify placeSearch db auth_token locname =
        some (db3, r3) →
      ∀ loc ∈ db3.locations, loc ∈ db.locations ∨
        (loc.is_sp = true ∧ loc.query_id = none)) := by
  constructor
  · intro h loc hloc
    simp only [compute_query_result, hq] at h
    split at h
    · cases h
    · split at h
      · cases h
      · cases h
        rcases addLocations_mem query _ db loc hloc with hmem | hnew
        · exact Or.inl hmem
        · right
          rcases hnew with ⟨h1, h2, h3⟩
          rw [if_neg hid] at h2
          exact ⟨h1, h2, h3⟩
  · intro h loc hloc
    simp only [add_sponsor_location] at h
    split at h
    · cases h; exact Or.inl hloc
    · split at h
      · cases h; exact Or.inl hloc
      · split at h
        · cases h
        · cases h
          rcases List.mem_append.mp hloc with h1 | h2
          · exact Or.inl h1
          · right
            simp only [List.mem_singleton] at h2
            subst h2
            simp [Location.make]

/-- The persisted stopover created when computing deviations for
`query10` on the fixture database. -/
def locC : Location := Location.make 2 "z" 5 6 2 10 false

/-- The fixture database after computing deviations for `query10`. -/
def dbC : DB := addLocations query10 [{ name := "z", lat := 5, lng := 6 }] db0

/-- The sponsor location persisted for `user2` on the fixture database. -/
def locS : Location := Location.make 2 "Diner" 7 8 2 (-1) true

/-- The fixture database after adding the sponsor location. -/
def dbS : DB :=
  { db0 with locations := db0.locations ++ [locS], next_location_id := 3 }

/-- Witness for C6 on the fixture database: both the engine-discovered row
and the sponsor row satisfy the invariant. -/
theorem stopover_rows_share_query_owner_witness :
    (locC ∈ db0.locations ∨
      (locC.user_id = query10.user_id ∧ locC.query_id = some query10.id ∧
       locC.is_sp = false)) ∧
    (locS ∈ db0.locations ∨ (locS.is_sp = true ∧ locS.query_id = none)) :=
  ⟨(stopover_rows_share_query_owner dirPost1 pdp1 verify1 place1 db0 10 query10
      dbC dbS
      (Resp.okDeviations "Basic Route Created Successfully"
        [{ name := "z", lat := 5, lng := 6 }])
      (Resp.okMsg "Sponsor Location Added Successfully") "t2" "Diner"
      (by decide) (by decide)).1 (by decide) locC (by decide),
   (stopover_rows_share_query_owner dirPost1 pdp1 verify1 place1 db0 10 query10
      dbC dbS
      (Resp.okDeviations "Basic Route Created Successfully"
        [{ name := "z", lat := 5, lng := 6 }])
      (Resp.okMsg "Sponsor Location Added Successfully") "t2" "Diner"
      (by decide) (by decide)).2 (by decide) locS (by decide)⟩

/-- C1: the claim fails on the code, against the handlers' own docstrings
("Query must belong to the logged in user"). On the fixture database,
`user1` (token `t1`) fetches the results of `user2`'s query 10 and the
handler answers with the full status-0 result instead of a NotFound-style
error; the compute-deviations handler — which takes no token at all —
likewise computes and persists deviations for `user2`'s query; and a
compute request for a nonexistent query id raises an uncaught exception
(modelled `none`) rather than returning a NotFound-style response. -/
theorem crossuser_query_access_not_rejected :
    create_query_result verify1 dirGet1 "k" db0 "t1" (some 10) =
      some (db0, resp0) ∧
    compute_query_result dirPost1 pdp1 db0 10 =
      some (dbC, Resp.okDeviations "Basic Route Created Successfully"
        [{ name := "z", lat := 5, lng := 6 }]) ∧
    compute_query_result dirPost1 pdp1 db0 999 = none :=
  ⟨rfl, by decide, by decide⟩

end RobotTravel
